import Mathlib

/-!
# Chatjob backend — settlement calculator and wallet operations

Shallow embedding of `src/main.py` (the pay-per-minute chat backend) and the
document schemas of `src/schemas.py`.

Modelling conventions:
* Document ids (`ObjectId`) are natural numbers; each collection is an
  association list from id to document; `create_document` inserts at a fresh
  id drawn from a per-collection counter.
* Monetary values and timestamps are rationals (`ℚ`); a timestamp is the
  number of seconds since some epoch, so Python's
  `(now - started).total_seconds()` is `now - started` here.
* An ISO-timestamp string field is modelled as `Option ℚ`: `some t` when
  `datetime.fromisoformat` would parse it to time `t`, `none` when parsing
  raises (the `except` branch of `end_chat`).
* Python's `round(x, 2)` is round-half-to-even on `x * 100` (`pyRound`),
  faithful to `round`'s documented semantics on the idealised (exact
  rational) value.
* `HTTPException(status_code, detail)` becomes `Except.error (code, detail)`;
  every handler raises before its first write, so a failed call leaves the
  store unchanged.
* The `updated_at` bookkeeping timestamps written by `update_one` carry no
  information the claims mention and are not modelled.
-/

namespace Chatjob

/-- Document id (stands for a Mongo `ObjectId`). -/
abbrev Id := Nat

/-- `User.role`: the pydantic pattern `^(creator|customer)$` admits exactly
these two values. -/
inductive Role where
  | creator
  | customer
deriving DecidableEq

/-- `Chat.status`: "active or ended". -/
inductive ChatStatus where
  | active
  | ended
deriving DecidableEq

/-- `Payment.kind`: the pydantic pattern `^(topup|settlement)$`. -/
inductive PayKind where
  | topup
  | settlement
deriving DecidableEq

/-- `schemas.User`. -/
structure User where
  name : String
  role : Role
  rate_eur_per_min : Option ℚ := none
  wallet_eur : ℚ := 0
  bio : Option String := none
  avatar_url : Option String := none
deriving DecidableEq

/-- `schemas.Chat`. `started_at := none` models an unparseable
`started_at` string. -/
structure Chat where
  creator_id : Id
  customer_id : Id
  status : ChatStatus := .active
  rate_eur_per_min : ℚ
  started_at : Option ℚ := none
  ended_at : Option ℚ := none
  total_minutes : Option ℤ := none
  total_cost_eur : Option ℚ := none
deriving DecidableEq

/-- `schemas.Message`. -/
structure Message where
  chat_id : Id
  sender_id : Id
  content : String
  sent_at : Option ℚ := none
deriving DecidableEq

/-- `schemas.Payment`: "Positive for credit to user, negative for debit". -/
structure Payment where
  user_id : Id
  kind : PayKind
  amount_eur : ℚ
  chat_id : Option Id := none
deriving DecidableEq

/-- The document store: one association list per collection, plus fresh-id
counters for the collections whose ids the code reads back. Payments are
only ever appended and listed, so they are kept as a plain ledger list. -/
structure DB where
  users : List (Id × User)
  chats : List (Id × Chat)
  messages : List (Id × Message)
  payments : List Payment
  nextUserId : Id := 0
  nextChatId : Id := 0
  nextMessageId : Id := 0
deriving DecidableEq

/-- `find_one({"_id": i})`: first entry with key `i`. -/
def lookup {α : Type} : List (Id × α) → Id → Option α
  | [], _ => none
  | (j, a) :: t, i => if j = i then some a else lookup t i

/-- `update_one({"_id": i}, {"$set": ...})`: rewrite the document(s) with
key `i` by `f`. -/
def updateEntry {α : Type} (l : List (Id × α)) (i : Id) (f : α → α) : List (Id × α) :=
  l.map (fun p => if p.1 = i then (p.1, f p.2) else p)

/-- Python's `round` to an integer: round half to even on the exact
rational value. -/
def pyRound (q : ℚ) : ℤ :=
  let f : ℤ := ⌊q⌋
  if q - f < 1 / 2 then f
  else if q - f > 1 / 2 then f + 1
  else if f % 2 = 0 then f else f + 1

/-- Python's `round(q, 2)`. -/
def round2 (q : ℚ) : ℚ :=
  (pyRound (q * 100) : ℚ) / 100

/-! ## Handlers (`src/main.py`) -/

/-- `SignupPayload`: `role` is a raw string, validated by the handler. -/
structure SignupPayload where
  name : String
  role : String
  rate_eur_per_min : Option ℚ := none
  bio : Option String := none
  avatar_url : Option String := none

/-- `POST /users` (`create_user`). -/
def create_user (db : DB) (payload : SignupPayload) : Except (Nat × String) (DB × Id) :=
  if payload.role ≠ "creator" ∧ payload.role ≠ "customer" then
    .error (400, "role must be creator or customer")
  else if payload.role = "creator" ∧
      (payload.rate_eur_per_min = none ∨ ∃ r, payload.rate_eur_per_min = some r ∧ r < 0) then
    .error (400, "Creators must specify a non-negative rate_eur_per_min")
  else
    let user : User :=
      { name := payload.name
        role := if payload.role = "creator" then .creator else .customer
        rate_eur_per_min := if payload.role = "creator" then payload.rate_eur_per_min else none
        wallet_eur := 0
        bio := payload.bio
        avatar_url := payload.avatar_url }
    let uid := db.nextUserId
    .ok ({ db with users := (uid, user) :: db.users, nextUserId := uid + 1 }, uid)

/-- `POST /wallet/topup` (`wallet_topup`). -/
def wallet_topup (db : DB) (user_id : Id) (amount_eur : ℚ) :
    Except (Nat × String) (DB × ℚ) :=
  if amount_eur ≤ 0 then .error (400, "Amount must be positive")
  else
    match lookup db.users user_id with
    | none => .error (404, "User not found")
    | some u =>
      let new_balance := round2 (u.wallet_eur + amount_eur)
      let users' := updateEntry db.users user_id (fun v => { v with wallet_eur := new_balance })
      let pay : Payment := { user_id := user_id, kind := .topup, amount_eur := amount_eur }
      .ok ({ db with users := users', payments := db.payments ++ [pay] }, new_balance)

/-- `POST /chats` (`start_chat`); `now` is the value of `now_iso()`. -/
def start_chat (db : DB) (creator_id customer_id : Id) (now : ℚ) :
    Except (Nat × String) (DB × Id × Chat) :=
  match lookup db.users creator_id, lookup db.users customer_id with
  | some creator, some customer =>
    if creator.role = Role.creator ∧ customer.role = Role.customer then
      let rate := creator.rate_eur_per_min.getD 0
      let chat : Chat :=
        { creator_id := creator_id
          customer_id := customer_id
          status := .active
          rate_eur_per_min := rate
          started_at := some now }
      let cid := db.nextChatId
      .ok ({ db with chats := (cid, chat) :: db.chats, nextChatId := cid + 1 }, cid, chat)
    else .error (400, "Invalid creator or customer")
  | _, _ => .error (400, "Invalid creator or customer")

/-- `POST /chats/{chat_id}/messages` (`send_message`). -/
def send_message (db : DB) (chat_id sender_id : Id) (content : String) (now : ℚ) :
    Except (Nat × String) (DB × Id) :=
  match lookup db.chats chat_id with
  | none => .error (404, "Chat not found")
  | some _ =>
    let msg : Message := { chat_id := chat_id, sender_id := sender_id
                           content := content, sent_at := some now }
    let mid := db.nextMessageId
    .ok ({ db with messages := (mid, msg) :: db.messages, nextMessageId := mid + 1 }, mid)

/-- The body of `end_chat` after the chat has been read and found not yet
ended: the settlement computation and the writes, acting on `db` from the
snapshot `chat` that the caller read. (In the source this is lines 198-241;
the final `find_one` re-read of the chat it has just updated returns the
ended chat written here.) The fallback `started_dt = now` models the
`except` branch of `datetime.fromisoformat`; the source takes a second
`datetime.now` there, microseconds after `now`, which yields the same
`minutes = 1`. -/
def end_chat_commit (db : DB) (chat_id : Id) (chat : Chat) (now : ℚ) :
    Except (Nat × String) (DB × Chat) :=
  let rate := chat.rate_eur_per_min
  let started_dt := chat.started_at.getD now
  let minutes : ℤ := max 1 ⌈(now - started_dt) / 60⌉
  let total_cost := round2 ((minutes : ℚ) * rate)
  match lookup db.users chat.creator_id, lookup db.users chat.customer_id with
  | some creator, some customer =>
    let new_cust := round2 (customer.wallet_eur - total_cost)
    let usersA := updateEntry db.users chat.customer_id (fun u => { u with wallet_eur := new_cust })
    let db1 : DB := { db with users := usersA }
    let new_creator := round2 (creator.wallet_eur + total_cost)
    let usersB := updateEntry db1.users chat.creator_id (fun u => { u with wallet_eur := new_creator })
    let db2 : DB := { db1 with users := usersB }
    let debit : Payment :=
      { user_id := chat.customer_id, kind := .settlement, amount_eur := -total_cost, chat_id := some chat_id }
    let credit : Payment :=
      { user_id := chat.creator_id, kind := .settlement, amount_eur := total_cost, chat_id := some chat_id }
    let db3 : DB := { db2 with payments := db2.payments ++ [debit, credit] }
    let endedChat : Chat :=
      { chat with status := .ended, ended_at := some now, total_minutes := some minutes, total_cost_eur := some total_cost }
    let db4 : DB := { db3 with chats := updateEntry db3.chats chat_id (fun _ => endedChat) }
    .ok (db4, endedChat)
  | _, _ => .error (400, "Creator or customer not found")

/-- `POST /chats/{chat_id}/end` (`end_chat`): read the chat, return it
unchanged when already ended, otherwise settle. -/
def end_chat (db : DB) (chat_id : Id) (now : ℚ) : Except (Nat × String) (DB × Chat) :=
  match lookup db.chats chat_id with
  | none => .error (404, "Chat not found")
  | some chat =>
    if chat.status = ChatStatus.ended then .ok (db, chat)
    else end_chat_commit db chat_id chat now

/-- The store-mutating operations of the repository (the read-only endpoints
`root`, `test_database`, `get_user`, `list_creators`, `list_messages` do not
write; `seed_creators` only inserts users, as `create_user` does). -/
inductive Op where
  | createUser (payload : SignupPayload)
  | topup (user_id : Id) (amount_eur : ℚ)
  | startChat (creator_id customer_id : Id) (now : ℚ)
  | sendMessage (chat_id sender_id : Id) (content : String) (now : ℚ)
  | endChat (chat_id : Id) (now : ℚ)

/-- Effect of one handler call on the store. Every handler raises before its
first write, so an error leaves the store as it was. -/
def run (db : DB) : Op → DB
  | .createUser p =>
    match create_user db p with
    | .ok (db', _) => db'
    | .error _ => db
  | .topup u a =>
    match wallet_topup db u a with
    | .ok (db', _) => db'
    | .error _ => db
  | .startChat cr cu now =>
    match start_chat db cr cu now with
    | .ok (db', _) => db'
    | .error _ => db
  | .sendMessage c s txt now =>
    match send_message db c s txt now with
    | .ok (db', _) => db'
    | .error _ => db
  | .endChat c now =>
    match end_chat db c now with
    | .ok (db', _) => db'
    | .error _ => db

/-! ## Derived descriptions of the settlement result

These name the exact expressions computed inside `end_chat_commit`, so the
lemmas below can state what a successful settlement writes. -/

/-- The `minutes` expression of `end_chat` line 205:
`max(1, ceil((now - started_dt).total_seconds() / 60.0))`. -/
def settleMinutes (chat : Chat) (now : ℚ) : ℤ :=
  max 1 ⌈(now - chat.started_at.getD now) / 60⌉

/-- The `total_cost` expression of `end_chat` line 206:
`round(minutes * rate, 2)`. -/
def settleCost (chat : Chat) (now : ℚ) : ℚ :=
  round2 ((settleMinutes chat now : ℚ) * chat.rate_eur_per_min)

/-- The chat document as rewritten by `end_chat` lines 230-239. -/
def settledChat (chat : Chat) (now : ℚ) : Chat :=
  { chat with status := .ended, ended_at := some now
              total_minutes := some (settleMinutes chat now)
              total_cost_eur := some (settleCost chat now) }

/-- The settlement debit record of `end_chat` line 226. -/
def debitRecord (chat : Chat) (cid : Id) (now : ℚ) : Payment :=
  { user_id := chat.customer_id, kind := .settlement
    amount_eur := -settleCost chat now, chat_id := some cid }

/-- The settlement credit record of `end_chat` line 227. -/
def creditRecord (chat : Chat) (cid : Id) (now : ℚ) : Payment :=
  { user_id := chat.creator_id, kind := .settlement
    amount_eur := settleCost chat now, chat_id := some cid }

/-- The store after a successful settlement of an active chat, given the
`creator` and `customer` documents `end_chat` read. -/
def settledDB (db : DB) (cid : Id) (chat : Chat) (creator customer : User) (now : ℚ) : DB :=
  { db with
    users := (updateEntry
      (updateEntry db.users chat.customer_id
        (fun u => { u with wallet_eur := round2 (customer.wallet_eur - settleCost chat now) }))
      chat.creator_id
      (fun u => { u with wallet_eur := round2 (creator.wallet_eur + settleCost chat now) }))
    chats := updateEntry db.chats cid (fun _ => settledChat chat now)
    payments := db.payments ++ [debitRecord chat cid now, creditRecord chat cid now] }

/-- A well-formed store: every chat id already present is below the
fresh-id counter (Mongo's `ObjectId` generation never reuses an id of an
existing document). -/
def WFChats (db : DB) : Prop :=
  ∀ p ∈ db.chats, p.1 < db.nextChatId

instance (db : DB) : Decidable (WFChats db) := by
  unfold WFChats; infer_instance

/-! ## Concrete example store

A creator at 1.20 EUR/min (rate `6/5`), a customer holding 25 EUR, and one
active chat between them started at time 0. -/

def exCreator : User :=
  { name := "Sophie", role := .creator, rate_eur_per_min := some (6/5), wallet_eur := 0 }

def exCustomer : User :=
  { name := "Max", role := .customer, wallet_eur := 25 }

def exChat : Chat :=
  { creator_id := 0, customer_id := 1, rate_eur_per_min := 6/5, started_at := some 0 }

def exDb : DB :=
  { users := [(0, exCreator), (1, exCustomer)], chats := [(0, exChat)], messages := []
    payments := [], nextUserId := 2, nextChatId := 1, nextMessageId := 0 }

/-- The example chat already settled: 150 seconds at rate `6/5` is 3 minutes
and cost `18/5 = 3.60`. -/
def exEndedChat : Chat :=
  { creator_id := 0, customer_id := 1, status := .ended, rate_eur_per_min := 6/5
    started_at := some 0, ended_at := some 150, total_minutes := some 3
    total_cost_eur := some (18/5) }

/-- A store holding an already-ended chat. -/
def exEndedDb : DB :=
  { users := [(0, exCreator), (1, exCustomer)], chats := [(0, exEndedChat)], messages := []
    payments := [], nextUserId := 2, nextChatId := 1, nextMessageId := 0 }

/-- A store whose chat has an unparseable `started_at` string. -/
def exBadDateChat : Chat :=
  { creator_id := 0, customer_id := 1, rate_eur_per_min := 6/5, started_at := none }

def exBadDateDb : DB :=
  { users := [(0, exCreator), (1, exCustomer)], chats := [(0, exBadDateChat)], messages := []
    payments := [], nextUserId := 2, nextChatId := 1, nextMessageId := 0 }

/-- The customer of the wallet example of §8: a zero balance before the
25 EUR top-up. -/
def ex8Customer : User :=
  { name := "Ana", role := .customer, wallet_eur := 0 }

def ex8Db : DB :=
  { users := [(0, exCreator), (1, ex8Customer)], chats := [(0, exChat)], messages := []
    payments := [], nextUserId := 2, nextChatId := 1, nextMessageId := 0 }

/-- A store with an arbitrary rate change applied to one user document,
leaving every other field of every document alone (what a hypothetical
rate-update write would do between `start_chat` and `end_chat`). -/
def setUserRate (db : DB) (uid : Id) (r : Option ℚ) : DB :=
  { db with users := updateEntry db.users uid (fun u => { u with rate_eur_per_min := r }) }

/-- Effect on the store of one `end_chat` call that already read its chat
snapshot earlier (the `find_one` of line 192) and found it active: the
commit phase alone. An error leaves the store unchanged. -/
def runCommit (db : DB) (cid : Id) (chat : Chat) (now : ℚ) : DB :=
  match end_chat_commit db cid chat now with
  | .ok (db', _) => db'
  | .error _ => db

/-- Number of settlement payment records in a ledger. -/
def settlementCount (l : List Payment) : Nat :=
  (l.filter (fun p => decide (p.kind = PayKind.settlement))).length

/-- Store for the settlement race: creator at 1 EUR/min, customer holding
100 EUR, one active chat started at time 0. -/
def raceCreator : User :=
  { name := "Liam", role := .creator, rate_eur_per_min := some 1, wallet_eur := 0 }

def raceCustomer : User :=
  { name := "Kim", role := .customer, wallet_eur := 100 }

def raceChat : Chat :=
  { creator_id := 0, customer_id := 1, rate_eur_per_min := 1, started_at := some 0 }

def raceDb : DB :=
  { users := [(0, raceCreator), (1, raceCustomer)], chats := [(0, raceChat)], messages := []
    payments := [], nextUserId := 2, nextChatId := 1, nextMessageId := 0 }

/-- The §8 example store after the 25 EUR top-up. -/
def ex8DbAfterTopup : DB :=
  { users := [(0, exCreator), (1, { ex8Customer with wallet_eur := 25 })]
    chats := [(0, exChat)], messages := []
    payments := [{ user_id := 1, kind := .topup, amount_eur := 25 }]
    nextUserId := 2, nextChatId := 1, nextMessageId := 0 }

/-! ## Association-list lemmas -/

theorem lookup_cons {α : Type} (j : Id) (a : α) (t : List (Id × α)) (i : Id) :
    lookup ((j, a) :: t) i = if j = i then some a else lookup t i := rfl

theorem updateEntry_cons {α : Type} (j : Id) (a : α) (t : List (Id × α)) (i : Id) (f : α → α) :
    updateEntry ((j, a) :: t) i f =
      (if j = i then (j, f a) else (j, a)) :: updateEntry t i f := by
  by_cases h : j = i <;> simp [updateEntry, h]

theorem lookup_updateEntry_self {α : Type} (l : List (Id × α)) (i : Id) (f : α → α) :
    lookup (updateEntry l i f) i = (lookup l i).map f := by
  induction l with
  | nil => rfl
  | cons p t ih =>
    obtain ⟨j, a⟩ := p
    by_cases h : j = i
    · rw [updateEntry_cons, if_pos h, lookup_cons, if_pos h, lookup_cons, if_pos h]
      rfl
    · rw [updateEntry_cons, if_neg h, lookup_cons, if_neg h, lookup_cons, if_neg h]
      exact ih

theorem lookup_updateEntry_ne {α : Type} (l : List (Id × α)) (i j : Id) (f : α → α)
    (h : i ≠ j) : lookup (updateEntry l i f) j = lookup l j := by
  induction l with
  | nil => rfl
  | cons p t ih =>
    obtain ⟨k, a⟩ := p
    by_cases hk : k = i
    · rw [updateEntry_cons, if_pos hk, lookup_cons, lookup_cons]
      by_cases hkj : k = j
      · exact absurd (hk.symm.trans hkj) h
      · rw [if_neg hkj, if_neg hkj]
        exact ih
    · rw [updateEntry_cons, if_neg hk, lookup_cons, lookup_cons]
      by_cases hkj : k = j
      · rw [if_pos hkj, if_pos hkj]
      · rw [if_neg hkj, if_neg hkj]
        exact ih

theorem lookup_mem {α : Type} {l : List (Id × α)} {i : Id} {a : α}
    (h : lookup l i = some a) : (i, a) ∈ l := by
  induction l with
  | nil => exact absurd h (by simp [lookup])
  | cons p t ih =>
    obtain ⟨j, b⟩ := p
    by_cases hj : j = i
    · subst hj
      rw [lookup_cons, if_pos rfl] at h
      rw [Option.some.injEq] at h
      subst h
      exact List.mem_cons_self _ _
    · rw [lookup_cons, if_neg hj] at h
      exact List.mem_cons_of_mem _ (ih h)

/-! ## Arithmetic lemmas for `pyRound` and `round2` -/

theorem pyRound_intCast (n : ℤ) : pyRound (n : ℚ) = n := by
  unfold pyRound
  norm_num [Int.floor_intCast]

/-- When `q` is a whole number of cents, `round2` only rescales it. -/
theorem round2_eq (q : ℚ) (n : ℤ) (h : q * 100 = (n : ℚ)) : round2 q = (n : ℚ) / 100 := by
  unfold round2
  rw [h, pyRound_intCast]

/-! ## Master equations for `end_chat` -/

theorem settledDB_users (db : DB) (cid : Id) (chat : Chat) (creator customer : User) (now : ℚ) :
    (settledDB db cid chat creator customer now).users =
      updateEntry
        (updateEntry db.users chat.customer_id
          (fun u => { u with wallet_eur := round2 (customer.wallet_eur - settleCost chat now) }))
        chat.creator_id
        (fun u => { u with wallet_eur := round2 (creator.wallet_eur + settleCost chat now) }) := rfl

theorem settledDB_chats (db : DB) (cid : Id) (chat : Chat) (creator customer : User) (now : ℚ) :
    (settledDB db cid chat creator customer now).chats =
      updateEntry db.chats cid (fun _ => settledChat chat now) := rfl

theorem settledDB_payments (db : DB) (cid : Id) (chat : Chat) (creator customer : User) (now : ℚ) :
    (settledDB db cid chat creator customer now).payments =
      db.payments ++ [debitRecord chat cid now, creditRecord chat cid now] := rfl

/-- Re-settling an ended chat is the identity on the store and returns the
stored document (`end_chat` lines 195-196). -/
theorem end_chat_ended_eq (db : DB) (cid : Id) (now : ℚ) (chat : Chat)
    (hc : lookup db.chats cid = some chat) (hs : chat.status = .ended) :
    end_chat db cid now = .ok (db, chat) := by
  simp [end_chat, hc, hs]

/-- An active chat's settlement is exactly the commit phase on the snapshot
that was read. -/
theorem end_chat_active_unfold (db : DB) (cid : Id) (now : ℚ) (chat : Chat)
    (hc : lookup db.chats cid = some chat) (hs : chat.status = .active) :
    end_chat db cid now = end_chat_commit db cid chat now := by
  simp only [end_chat, hc, hs]
  rw [if_neg (by decide : ChatStatus.active ≠ ChatStatus.ended)]

/-- The commit phase, when both user documents exist, writes `settledDB`
and returns `settledChat`. -/
theorem end_chat_commit_eq (db : DB) (cid : Id) (now : ℚ) (chat : Chat)
    (creator customer : User)
    (hcr : lookup db.users chat.creator_id = some creator)
    (hcu : lookup db.users chat.customer_id = some customer) :
    end_chat_commit db cid chat now =
      .ok (settledDB db cid chat creator customer now, settledChat chat now) := by
  simp only [end_chat_commit, hcr, hcu]
  rfl

/-- The commit phase fails with HTTP 400 when the creator document is
missing. -/
theorem end_chat_commit_err_left (db : DB) (cid : Id) (now : ℚ) (chat : Chat)
    (h : lookup db.users chat.creator_id = none) :
    end_chat_commit db cid chat now = .error (400, "Creator or customer not found") := by
  simp only [end_chat_commit, h]

/-- The commit phase fails with HTTP 400 when the customer document is
missing. -/
theorem end_chat_commit_err_right (db : DB) (cid : Id) (now : ℚ) (chat : Chat)
    (creator : User)
    (hcr : lookup db.users chat.creator_id = some creator)
    (h : lookup db.users chat.customer_id = none) :
    end_chat_commit db cid chat now = .error (400, "Creator or customer not found") := by
  simp only [end_chat_commit, hcr, h]

/-- Settling an active chat whose creator and customer documents exist
produces exactly the store `settledDB` and returns `settledChat`. -/
theorem end_chat_active_eq (db : DB) (cid : Id) (now : ℚ) (chat : Chat)
    (creator customer : User)
    (hc : lookup db.chats cid = some chat) (hs : chat.status = .active)
    (hcr : lookup db.users chat.creator_id = some creator)
    (hcu : lookup db.users chat.customer_id = some customer) :
    end_chat db cid now =
      .ok (settledDB db cid chat creator customer now, settledChat chat now) := by
  simp only [end_chat, hc, hs]
  have hne : ChatStatus.active ≠ ChatStatus.ended := by simp
  rw [if_neg hne]
  simp only [end_chat_commit, hcr, hcu]
  rfl

/-! ## Claim theorems -/

/-- C1: for every settlement of an active chat, the elapsed minutes charged
equal the ceiling of elapsed seconds (`now - start_time`) divided by 60 with
a floor of 1; in particular an elapsed time under one minute is charged as
exactly 1 minute. -/
theorem end_chat_minutes_ceiling (db : DB) (cid : Id) (now t : ℚ) (chat : Chat)
    (creator customer : User)
    (hc : lookup db.chats cid = some chat) (hs : chat.status = .active)
    (ht : chat.started_at = some t)
    (hcr : lookup db.users chat.creator_id = some creator)
    (hcu : lookup db.users chat.customer_id = some customer) :
    ∃ db' c', end_chat db cid now = .ok (db', c') ∧
      c'.total_minutes = some (max 1 ⌈(now - t) / 60⌉) ∧
      (now - t < 60 → c'.total_minutes = some 1) := by
  refine ⟨_, _, end_chat_active_eq db cid now chat creator customer hc hs hcr hcu, ?_, ?_⟩
  · simp [settledChat, settleMinutes, ht]
  · intro hlt
    have h1 : (⌈(now - t) / 60⌉ : ℤ) ≤ 1 := by
      rw [Int.ceil_le]
      push_cast
      rw [div_le_one (by norm_num : (0:ℚ) < 60)]
      linarith
    simp [settledChat, settleMinutes, ht, max_eq_left h1]

/-- C1 witness: ending the example chat 10 seconds in still bills 1 minute. -/
theorem end_chat_minutes_ceiling_witness :
    ∃ db' c', end_chat exDb 0 10 = .ok (db', c') ∧
      c'.total_minutes = some (max 1 ⌈((10:ℚ) - 0) / 60⌉) ∧
      ((10:ℚ) - 0 < 60 → c'.total_minutes = some 1) :=
  end_chat_minutes_ceiling exDb 0 10 0 exChat exCreator exCustomer rfl rfl rfl rfl rfl

/-- C2: for every settlement with computed minutes `m` and non-negative
per-minute rate, the stored cost is `round(m * rate, 2)`; in particular 150
elapsed seconds at rate `1.20 = 6/5` bill 3 minutes and `3.60 = 18/5`. -/
theorem end_chat_cost_rounded (db : DB) (cid : Id) (now t : ℚ) (chat : Chat)
    (creator customer : User)
    (hr : 0 ≤ chat.rate_eur_per_min)
    (hc : lookup db.chats cid = some chat) (hs : chat.status = .active)
    (ht : chat.started_at = some t)
    (hcr : lookup db.users chat.creator_id = some creator)
    (hcu : lookup db.users chat.customer_id = some customer) :
    ∃ db' c', end_chat db cid now = .ok (db', c') ∧
      c'.total_minutes = some (max 1 ⌈(now - t) / 60⌉) ∧
      c'.total_cost_eur =
        some (round2 ((max 1 ⌈(now - t) / 60⌉ : ℤ) * chat.rate_eur_per_min)) ∧
      (now - t = 150 → chat.rate_eur_per_min = 6/5 →
        c'.total_minutes = some 3 ∧ c'.total_cost_eur = some (18/5)) := by
  have hm : settleMinutes chat now = max 1 ⌈(now - t) / 60⌉ := by
    simp [settleMinutes, ht]
  refine ⟨_, _, end_chat_active_eq db cid now chat creator customer hc hs hcr hcu, ?_, ?_, ?_⟩
  · simp [settledChat, hm]
  · simp [settledChat, settleCost, hm]
  · intro h150 hrate
    have hceil : (⌈(now - t) / 60⌉ : ℤ) = 3 := by
      rw [h150]
      norm_num [Int.ceil_eq_iff]
    have hm3 : settleMinutes chat now = 3 := by
      rw [hm, hceil]
      decide
    have hcost : settleCost chat now = 18/5 := by
      rw [settleCost, hm3, hrate, round2_eq _ 360 (by push_cast; ring)]
      norm_num
    exact ⟨by simp [settledChat, hm3], by simp [settledChat, hcost]⟩

/-- C2 witness: the example chat settled at `now = 150`. -/
theorem end_chat_cost_rounded_witness :
    ∃ db' c', end_chat exDb 0 150 = .ok (db', c') ∧
      c'.total_minutes = some (max 1 ⌈((150:ℚ) - 0) / 60⌉) ∧
      c'.total_cost_eur =
        some (round2 ((max 1 ⌈((150:ℚ) - 0) / 60⌉ : ℤ) * exChat.rate_eur_per_min)) ∧
      ((150:ℚ) - 0 = 150 → exChat.rate_eur_per_min = 6/5 →
        c'.total_minutes = some 3 ∧ c'.total_cost_eur = some (18/5)) :=
  end_chat_cost_rounded exDb 0 150 0 exChat exCreator exCustomer
    (by norm_num [exChat]) rfl rfl rfl rfl rfl

/-- C3: invoking `end_chat` on a session whose status is already `ended` is
a no-op: it returns the stored chat document (with its stored minutes and
cost) and leaves the store — wallets, payments, chats — untouched. -/
theorem end_chat_idempotent (db : DB) (cid : Id) (now : ℚ) (chat : Chat)
    (hc : lookup db.chats cid = some chat) (hs : chat.status = .ended) :
    end_chat db cid now = .ok (db, chat) ∧ run db (.endChat cid now) = db := by
  have h := end_chat_ended_eq db cid now chat hc hs
  refine ⟨h, ?_⟩
  simp only [run, h]

/-- C3 witness: re-ending the already-ended example chat changes nothing. -/
theorem end_chat_idempotent_witness :
    end_chat exEndedDb 0 999 = .ok (exEndedDb, exEndedChat) ∧
      run exEndedDb (.endChat 0 999) = exEndedDb :=
  end_chat_idempotent exEndedDb 0 999 exEndedChat rfl rfl

/-- C4: every settlement appends exactly two settlement records for the
session — a debit against the customer and a credit to the creator — whose
amounts are equal in magnitude and opposite in sign (the credit being the
stored cost). -/
theorem settlement_two_opposite_records (db : DB) (cid : Id) (now : ℚ) (chat : Chat)
    (creator customer : User)
    (hc : lookup db.chats cid = some chat) (hs : chat.status = .active)
    (hcr : lookup db.users chat.creator_id = some creator)
    (hcu : lookup db.users chat.customer_id = some customer) :
    ∃ db' c' debit credit,
      end_chat db cid now = .ok (db', c') ∧
      db'.payments = db.payments ++ [debit, credit] ∧
      debit.kind = .settlement ∧ credit.kind = .settlement ∧
      debit.user_id = chat.customer_id ∧ credit.user_id = chat.creator_id ∧
      debit.chat_id = some cid ∧ credit.chat_id = some cid ∧
      c'.total_cost_eur = some credit.amount_eur ∧
      debit.amount_eur = -credit.amount_eur ∧
      |debit.amount_eur| = |credit.amount_eur| := by
  refine ⟨_, _, debitRecord chat cid now, creditRecord chat cid now,
    end_chat_active_eq db cid now chat creator customer hc hs hcr hcu,
    rfl, rfl, rfl, rfl, rfl, rfl, rfl, ?_, ?_, ?_⟩
  · simp [settledChat, creditRecord]
  · simp [debitRecord, creditRecord]
  · simp [debitRecord, creditRecord, abs_neg]

/-- C4 witness: the two records written when the example chat settles. -/
theorem settlement_two_opposite_records_witness :
    ∃ db' c' debit credit,
      end_chat exDb 0 150 = .ok (db', c') ∧
      db'.payments = exDb.payments ++ [debit, credit] ∧
      debit.kind = .settlement ∧ credit.kind = .settlement ∧
      debit.user_id = exChat.customer_id ∧ credit.user_id = exChat.creator_id ∧
      debit.chat_id = some 0 ∧ credit.chat_id = some 0 ∧
      c'.total_cost_eur = some credit.amount_eur ∧
      debit.amount_eur = -credit.amount_eur ∧
      |debit.amount_eur| = |credit.amount_eur| :=
  settlement_two_opposite_records exDb 0 150 exChat exCreator exCustomer rfl rfl rfl rfl

/-- C6: the settlement calculation never fails on a bad start timestamp:
when `started_at` is unparseable the evaluation time is substituted, so the
settlement completes with exactly 1 minute billed at one minute's cost. -/
theorem end_chat_unparseable_start (db : DB) (cid : Id) (now : ℚ) (chat : Chat)
    (creator customer : User)
    (hc : lookup db.chats cid = some chat) (hs : chat.status = .active)
    (ht : chat.started_at = none)
    (hcr : lookup db.users chat.creator_id = some creator)
    (hcu : lookup db.users chat.customer_id = some customer) :
    ∃ db' c', end_chat db cid now = .ok (db', c') ∧
      c'.total_minutes = some 1 ∧
      c'.total_cost_eur = some (round2 chat.rate_eur_per_min) := by
  have hm : settleMinutes chat now = 1 := by
    rw [settleMinutes, ht]
    norm_num
  have hcost : settleCost chat now = round2 chat.rate_eur_per_min := by
    rw [settleCost, hm]
    norm_num
  exact ⟨_, _, end_chat_active_eq db cid now chat creator customer hc hs hcr hcu,
    by simp [settledChat, hm], by simp [settledChat, hcost]⟩

/-- C6 witness: the example chat with an unparseable start settles to one
minute at time 42. -/
theorem end_chat_unparseable_start_witness :
    ∃ db' c', end_chat exBadDateDb 0 42 = .ok (db', c') ∧
      c'.total_minutes = some 1 ∧
      c'.total_cost_eur = some (round2 exBadDateChat.rate_eur_per_min) :=
  end_chat_unparseable_start exBadDateDb 0 42 exBadDateChat exCreator exCustomer
    rfl rfl rfl rfl rfl

/-- C7: a wallet may go negative — when the customer balance is below the
cost, settlement still completes without error and debits the full cost,
leaving `round(old - cost, 2)`. -/
theorem settlement_permits_debt (db : DB) (cid : Id) (now : ℚ) (chat : Chat)
    (creator customer : User)
    (hc : lookup db.chats cid = some chat) (hs : chat.status = .active)
    (hcr : lookup db.users chat.creator_id = some creator)
    (hcu : lookup db.users chat.customer_id = some customer)
    (hne : chat.creator_id ≠ chat.customer_id)
    (hlow : customer.wallet_eur < settleCost chat now) :
    ∃ db' c', end_chat db cid now = .ok (db', c') ∧
      lookup db'.users chat.customer_id =
        some { customer with
               wallet_eur := round2 (customer.wallet_eur - settleCost chat now) } := by
  refine ⟨_, _, end_chat_active_eq db cid now chat creator customer hc hs hcr hcu, ?_⟩
  show lookup (settledDB db cid chat creator customer now).users chat.customer_id = _
  rw [settledDB]
  rw [lookup_updateEntry_ne _ _ _ _ hne, lookup_updateEntry_self, hcu]
  rfl

/-- C7 witness: settling the example chat after 6000 seconds costs 120 EUR
against a 25 EUR balance, and still goes through. -/
theorem settlement_permits_debt_witness :
    ∃ db' c', end_chat exDb 0 6000 = .ok (db', c') ∧
      lookup db'.users exChat.customer_id =
        some { exCustomer with
               wallet_eur := round2 (exCustomer.wallet_eur - settleCost exChat 6000) } := by
  have h1 : (⌈((6000:ℚ)) / 60⌉ : ℤ) = 100 := by norm_num [Int.ceil_eq_iff]
  have hm : settleMinutes exChat 6000 = 100 := by
    rw [settleMinutes]
    show max 1 ⌈((6000:ℚ) - (Option.getD (some 0) 6000)) / 60⌉ = 100
    rw [Option.getD, sub_zero, h1]
    decide
  have hcost : settleCost exChat 6000 = 120 := by
    rw [settleCost, hm]
    rw [round2_eq _ 12000 (by push_cast; norm_num [exChat])]
    norm_num
  exact settlement_permits_debt exDb 0 6000 exChat exCreator exCustomer rfl rfl rfl rfl
    (by decide) (by rw [hcost]; norm_num [exCustomer])

/-- Evaluation of the §8 top-up on the concrete store. -/
theorem topup_ex8 : wallet_topup ex8Db 1 25 = .ok (ex8DbAfterTopup, 25) := by
  have h25 : round2 ((0:ℚ) + 25) = 25 := by
    rw [round2_eq _ 2500 (by norm_num)]
    norm_num
  simp only [wallet_topup, if_neg (by norm_num : ¬(25:ℚ) ≤ 0)]
  have hu : lookup ex8Db.users 1 = some ex8Customer := rfl
  rw [hu]
  show Except.ok (_, round2 (ex8Customer.wallet_eur + 25)) = _
  have hw : ex8Customer.wallet_eur = 0 := rfl
  rw [hw, h25]
  rfl

/-- Evaluation of the §8 settlement cost: 150 seconds at rate `6/5`. -/
theorem settleCost_exChat_150 : settleCost exChat 150 = 18/5 := by
  have h1 : (⌈((150:ℚ)) / 60⌉ : ℤ) = 3 := by norm_num [Int.ceil_eq_iff]
  have hm : settleMinutes exChat 150 = 3 := by
    rw [settleMinutes]
    show max 1 ⌈((150:ℚ) - (Option.getD (some 0) 150)) / 60⌉ = 3
    rw [Option.getD, sub_zero, h1]
    decide
  rw [settleCost, hm]
  rw [round2_eq _ 360 (by push_cast; norm_num [exChat])]
  norm_num

/-- C8: a non-positive wallet top-up fails as invalid input (HTTP 400) and
leaves the store unchanged; a positive top-up sets the balance to
`round(old + amount, 2)` and appends exactly one top-up payment record.
Concretely, topping up 25 EUR on a zero balance yields 25, and the
subsequent settlement debiting `3.60 = 18/5` yields `21.40 = 107/5`. -/
theorem wallet_topup_rules (db : DB) (uid : Id) (amount : ℚ) (u : User)
    (hu : lookup db.users uid = some u) :
    (amount ≤ 0 → wallet_topup db uid amount = .error (400, "Amount must be positive") ∧
      run db (.topup uid amount) = db) ∧
    (0 < amount → ∃ db',
      wallet_topup db uid amount = .ok (db', round2 (u.wallet_eur + amount)) ∧
      lookup db'.users uid = some { u with wallet_eur := round2 (u.wallet_eur + amount) } ∧
      db'.payments = db.payments ++
        [{ user_id := uid, kind := .topup, amount_eur := amount, chat_id := none }]) ∧
    lookup (run ex8Db (Op.topup 1 25)).users 1 = some { ex8Customer with wallet_eur := 25 } ∧
    lookup (run (run ex8Db (Op.topup 1 25)) (Op.endChat 0 150)).users 1 =
      some { ex8Customer with wallet_eur := 107/5 } := by
  refine ⟨?_, ?_, ?_, ?_⟩
  · intro hle
    have he : wallet_topup db uid amount = .error (400, "Amount must be positive") := by
      rw [wallet_topup, if_pos hle]
    exact ⟨he, by simp only [run, he]⟩
  · intro hpos
    simp only [wallet_topup, if_neg (not_le.mpr hpos), hu]
    refine ⟨_, rfl, ?_, rfl⟩
    rw [lookup_updateEntry_self, hu]
    rfl
  · simp only [run, topup_ex8]
    rfl
  · have hB := end_chat_active_eq ex8DbAfterTopup 0 150 exChat exCreator
      { ex8Customer with wallet_eur := 25 } rfl rfl rfl rfl
    simp only [run, topup_ex8, hB]
    rw [settledDB_users]
    rw [show exChat.customer_id = 1 from rfl, show exChat.creator_id = 0 from rfl]
    rw [lookup_updateEntry_ne _ _ _ _ (by decide : (0:Id) ≠ 1)]
    rw [lookup_updateEntry_self]
    rw [show lookup ex8DbAfterTopup.users 1 = some { ex8Customer with wallet_eur := 25 } from rfl]
    have hval : round2 ((25:ℚ) - settleCost exChat 150) = 107/5 := by
      rw [settleCost_exChat_150, round2_eq _ 2140 (by norm_num)]
      norm_num
    simp [hval]

theorem runCommit_ok {db : DB} {cid : Id} {chat : Chat} {now : ℚ} {db' : DB} {c' : Chat}
    (h : end_chat_commit db cid chat now = .ok (db', c')) :
    runCommit db cid chat now = db' := by
  simp only [runCommit, h]

/-- C9: two `end_chat` calls on the same active session, interleaved so that
both `find_one` reads happen before either write (both see `status` still
`active`), each run the full commit: the ledger ends with four settlement
records — two settlements, a double debit leaving the customer at 98 from
100 — instead of the exactly-one settlement the specification requires.
The second conjunct shows the commit phase is precisely what `end_chat`
runs after its unguarded read. -/
theorem end_chat_race_double_settlement :
    raceChat.status = ChatStatus.active ∧
    end_chat raceDb 0 60 = end_chat_commit raceDb 0 raceChat 60 ∧
    settlementCount (runCommit raceDb 0 raceChat 60).payments = 2 ∧
    settlementCount (runCommit (runCommit raceDb 0 raceChat 60) 0 raceChat 60).payments = 4 ∧
    lookup (runCommit (runCommit raceDb 0 raceChat 60) 0 raceChat 60).users 1 =
      some { raceCustomer with wallet_eur := 98 } := by
  have hcost : settleCost raceChat 60 = 1 := by
    have h1 : (⌈((60:ℚ)) / 60⌉ : ℤ) = 1 := by norm_num [Int.ceil_eq_iff]
    have hm : settleMinutes raceChat 60 = 1 := by
      rw [settleMinutes]
      show max 1 ⌈((60:ℚ) - (Option.getD (some 0) 60)) / 60⌉ = 1
      rw [Option.getD, sub_zero, h1]
      decide
    rw [settleCost, hm, round2_eq _ 100 (by push_cast; norm_num [raceChat])]
    norm_num
  have hA := end_chat_commit_eq raceDb 0 60 raceChat raceCreator raceCustomer rfl rfl
  have hR1 : runCommit raceDb 0 raceChat 60 =
      settledDB raceDb 0 raceChat raceCreator raceCustomer 60 := runCommit_ok hA
  have hcrA : lookup (settledDB raceDb 0 raceChat raceCreator raceCustomer 60).users
      raceChat.creator_id =
      some { raceCreator with
             wallet_eur := round2 (raceCreator.wallet_eur + settleCost raceChat 60) } := by
    rw [settledDB_users]
    rw [show raceChat.creator_id = 0 from rfl, show raceChat.customer_id = 1 from rfl]
    rw [lookup_updateEntry_self]
    rw [lookup_updateEntry_ne _ _ _ _ (by decide : (1:Id) ≠ 0)]
    rfl
  have hcuA : lookup (settledDB raceDb 0 raceChat raceCreator raceCustomer 60).users
      raceChat.customer_id =
      some { raceCustomer with
             wallet_eur := round2 (raceCustomer.wallet_eur - settleCost raceChat 60) } := by
    rw [settledDB_users]
    rw [show raceChat.creator_id = 0 from rfl, show raceChat.customer_id = 1 from rfl]
    rw [lookup_updateEntry_ne _ _ _ _ (by decide : (0:Id) ≠ 1)]
    rw [lookup_updateEntry_self]
    rfl
  have hB := end_chat_commit_eq (settledDB raceDb 0 raceChat raceCreator raceCustomer 60)
    0 60 raceChat _ _ hcrA hcuA
  have hR2 := runCommit_ok hB
  refine ⟨rfl, end_chat_active_unfold raceDb 0 60 raceChat rfl rfl, ?_, ?_, ?_⟩
  · rw [hR1, settledDB_payments]
    simp [settlementCount, debitRecord, creditRecord, raceDb]
  · rw [hR1, hR2, settledDB_payments, settledDB_payments]
    simp [settlementCount, debitRecord, creditRecord, raceDb]
  · rw [hR1, hR2, settledDB_users]
    rw [show raceChat.customer_id = 1 from rfl, show raceChat.creator_id = 0 from rfl]
    rw [lookup_updateEntry_ne _ _ _ _ (by decide : (0:Id) ≠ 1), lookup_updateEntry_self]
    have hcuA' := hcuA
    rw [show raceChat.customer_id = 1 from rfl] at hcuA'
    rw [hcuA']
    have hw1 : round2 (raceCustomer.wallet_eur - settleCost raceChat 60) = 99 := by
      rw [hcost]
      show round2 ((100:ℚ) - 1) = 99
      rw [round2_eq _ 9900 (by norm_num)]
      norm_num
    have hw1b : round2 (raceCustomer.wallet_eur - 1) = 99 := by
      show round2 ((100:ℚ) - 1) = 99
      rw [round2_eq _ 9900 (by norm_num)]
      norm_num
    have h98 : round2 ((98:ℚ)) = 98 := by
      rw [round2_eq _ 9800 (by norm_num)]
      norm_num
    have h99 : round2 ((99:ℚ) - 1) = 98 := by
      rw [round2_eq _ 9800 (by norm_num)]
      norm_num
    norm_num [hw1, hw1b, hcost, h98, h99]

/-- C8 witness: the rules instantiated on the §8 example store. -/
theorem wallet_topup_rules_witness :
    ((25:ℚ) ≤ 0 → wallet_topup ex8Db 1 25 = .error (400, "Amount must be positive") ∧
      run ex8Db (.topup 1 25) = ex8Db) ∧
    (0 < (25:ℚ) → ∃ db',
      wallet_topup ex8Db 1 25 = .ok (db', round2 (ex8Customer.wallet_eur + 25)) ∧
      lookup db'.users 1 = some { ex8Customer with wallet_eur := round2 (ex8Customer.wallet_eur + 25) } ∧
      db'.payments = ex8Db.payments ++
        [{ user_id := 1, kind := .topup, amount_eur := 25, chat_id := none }]) ∧
    lookup (run ex8Db (Op.topup 1 25)).users 1 = some { ex8Customer with wallet_eur := 25 } ∧
    lookup (run (run ex8Db (Op.topup 1 25)) (Op.endChat 0 150)).users 1 =
      some { ex8Customer with wallet_eur := 107/5 } :=
  wallet_topup_rules ex8Db 1 25 ex8Customer rfl

theorem setUserRate_users (db : DB) (uid : Id) (r : Option ℚ) :
    (setUserRate db uid r).users =
      updateEntry db.users uid (fun u => { u with rate_eur_per_min := r }) := rfl

theorem setUserRate_chats (db : DB) (uid : Id) (r : Option ℚ) :
    (setUserRate db uid r).chats = db.chats := rfl

/-- Changing one user's rate never removes a user document. -/
theorem setUserRate_lookup_some {db : DB} (uid : Id) (r : Option ℚ) {i : Id} {u : User}
    (h : lookup db.users i = some u) :
    lookup (setUserRate db uid r).users i =
      some (if i = uid then { u with rate_eur_per_min := r } else u) := by
  rw [setUserRate_users]
  by_cases hi : i = uid
  · subst hi
    rw [lookup_updateEntry_self, h, if_pos rfl]
    rfl
  · rw [lookup_updateEntry_ne _ _ _ _ (fun he => hi he.symm), h, if_neg hi]

/-- Changing one user's rate never creates a user document. -/
theorem setUserRate_lookup_none {db : DB} (uid : Id) (r : Option ℚ) {i : Id}
    (h : lookup db.users i = none) :
    lookup (setUserRate db uid r).users i = none := by
  rw [setUserRate_users]
  by_cases hi : i = uid
  · subst hi
    rw [lookup_updateEntry_self, h]
    rfl
  · rw [lookup_updateEntry_ne _ _ _ _ (fun he => hi he.symm), h]

/-- C10: the rate billed at settlement is the one snapshotted into the chat
document when the chat was started (the creator's `rate_eur_per_min` at
that moment, 0 when absent); a later change of any user's rate leaves the
settlement response — its minutes and cost included — unchanged. -/
theorem settlement_rate_is_snapshot (db : DB) (crid cuid : Id) (now now2 : ℚ)
    (creator : User) (uid : Id) (r : Option ℚ) (cid : Id)
    (hcr : lookup db.users crid = some creator) :
    (∀ db' chId chat, start_chat db crid cuid now = .ok (db', chId, chat) →
      chat.rate_eur_per_min = creator.rate_eur_per_min.getD 0) ∧
    (end_chat (setUserRate db uid r) cid now2).map Prod.snd =
      (end_chat db cid now2).map Prod.snd := by
  constructor
  · intro db' chId chat h
    rcases hx : lookup db.users cuid with _ | customer
    · simp only [start_chat, hcr, hx] at h
      exact Except.noConfusion h
    · simp only [start_chat, hcr, hx] at h
      split_ifs at h with hrole
      rw [Except.ok.injEq, Prod.mk.injEq, Prod.mk.injEq] at h
      rw [← h.2.2]
  · rcases hc : lookup db.chats cid with _ | chat
    · have hL : end_chat (setUserRate db uid r) cid now2 = .error (404, "Chat not found") := by
        simp only [end_chat, setUserRate_chats, hc]
      have hR : end_chat db cid now2 = .error (404, "Chat not found") := by
        simp only [end_chat, hc]
      rw [hL, hR]
    · have hcL : lookup (setUserRate db uid r).chats cid = some chat := by
        rw [setUserRate_chats]
        exact hc
      by_cases hs : chat.status = ChatStatus.ended
      · rw [end_chat_ended_eq _ cid now2 chat hcL hs, end_chat_ended_eq db cid now2 chat hc hs]
        rfl
      · have hs' : chat.status = ChatStatus.active := by
          cases hx : chat.status
          · rfl
          · exact absurd hx hs
        rw [end_chat_active_unfold _ cid now2 chat hcL hs',
          end_chat_active_unfold db cid now2 chat hc hs']
        rcases h1 : lookup db.users chat.creator_id with _ | c
        · rw [end_chat_commit_err_left _ _ _ _ h1,
            end_chat_commit_err_left _ _ _ _ (setUserRate_lookup_none uid r h1)]
        · rcases h2 : lookup db.users chat.customer_id with _ | cu
          · rw [end_chat_commit_err_right _ _ _ _ _ h1 h2,
              end_chat_commit_err_right _ _ _ _ _ (setUserRate_lookup_some uid r h1)
                (setUserRate_lookup_none uid r h2)]
          · rw [end_chat_commit_eq _ _ _ _ _ _ h1 h2,
              end_chat_commit_eq _ _ _ _ _ _ (setUserRate_lookup_some uid r h1)
                (setUserRate_lookup_some uid r h2)]
            rfl

/-- C10 witness: bumping the example creator's rate to 99 after the chat
began does not change the settlement response. -/
theorem settlement_rate_is_snapshot_witness :
    (∀ db' chId chat, start_chat exDb 0 1 7 = .ok (db', chId, chat) →
      chat.rate_eur_per_min = exCreator.rate_eur_per_min.getD 0) ∧
    (end_chat (setUserRate exDb 0 (some 99)) 0 150).map Prod.snd =
      (end_chat exDb 0 150).map Prod.snd :=
  settlement_rate_is_snapshot exDb 0 1 7 150 exCreator 0 (some 99) 0 rfl

/-! ## Which operations touch the chat collection -/

theorem create_user_ok_chats {db : DB} {p : SignupPayload} {db' : DB} {uid : Id}
    (h : create_user db p = .ok (db', uid)) : db'.chats = db.chats := by
  unfold create_user at h
  split_ifs at h
  all_goals rw [Except.ok.injEq, Prod.mk.injEq] at h
  all_goals rw [← h.1]

theorem wallet_topup_ok_chats {db : DB} {u : Id} {a : ℚ} {db' : DB} {b : ℚ}
    (h : wallet_topup db u a = .ok (db', b)) : db'.chats = db.chats := by
  unfold wallet_topup at h
  split_ifs at h
  rcases hu : lookup db.users u with _ | usr
  · simp only [hu] at h
    exact Except.noConfusion h
  · simp only [hu] at h
    rw [Except.ok.injEq, Prod.mk.injEq] at h
    rw [← h.1]

theorem send_message_ok_chats {db : DB} {c s : Id} {txt : String} {now : ℚ}
    {db' : DB} {mid : Id}
    (h : send_message db c s txt now = .ok (db', mid)) : db'.chats = db.chats := by
  unfold send_message at h
  rcases hc : lookup db.chats c with _ | ch
  · simp only [hc] at h
    exact Except.noConfusion h
  · simp only [hc] at h
    rw [Except.ok.injEq, Prod.mk.injEq] at h
    rw [← h.1]

theorem start_chat_ok_chats {db : DB} {cr cu : Id} {now : ℚ} {db' : DB} {res : Id × Chat}
    (h : start_chat db cr cu now = .ok (db', res)) :
    ∃ ch, db'.chats = (db.nextChatId, ch) :: db.chats := by
  unfold start_chat at h
  rcases h1 : lookup db.users cr with _ | creator
  · simp only [h1] at h
    exact Except.noConfusion h
  · rcases h2 : lookup db.users cu with _ | customer
    · simp only [h1, h2] at h
      exact Except.noConfusion h
    · simp only [h1, h2] at h
      split_ifs at h with hrole
      rw [Except.ok.injEq, Prod.mk.injEq] at h
      exact ⟨_, by rw [← h.1]⟩

theorem end_chat_ok_shape {db : DB} {c : Id} {now : ℚ} {db' : DB} {r : Chat}
    (h : end_chat db c now = .ok (db', r)) :
    db' = db ∨ ∃ g, db'.chats = updateEntry db.chats c g := by
  rcases hc : lookup db.chats c with _ | ch
  · have he : end_chat db c now = .error (404, "Chat not found") := by
      simp only [end_chat, hc]
    rw [he] at h
    exact Except.noConfusion h
  · by_cases hst : ch.status = ChatStatus.ended
    · rw [end_chat_ended_eq db c now ch hc hst] at h
      rw [Except.ok.injEq, Prod.mk.injEq] at h
      exact Or.inl h.1.symm
    · have hst' : ch.status = ChatStatus.active := by
        cases hx : ch.status
        · rfl
        · exact absurd hx hst
      rw [end_chat_active_unfold db c now ch hc hst'] at h
      rcases h1 : lookup db.users ch.creator_id with _ | cr2
      · rw [end_chat_commit_err_left _ _ _ _ h1] at h
        exact Except.noConfusion h
      · rcases h2 : lookup db.users ch.customer_id with _ | cu2
        · rw [end_chat_commit_err_right _ _ _ _ _ h1 h2] at h
          exact Except.noConfusion h
        · rw [end_chat_commit_eq _ _ _ _ _ _ h1 h2] at h
          rw [Except.ok.injEq, Prod.mk.injEq] at h
          refine Or.inr ⟨fun _ => settledChat ch now, ?_⟩
          rw [← h.1, settledDB_chats]

/-- C5: a chat document's status only ever moves `active → ended`, exactly
once: any store-mutating operation of the repository either leaves a stored
chat document untouched, or is the `end_chat` of that very chat while still
active, which ends it and sets its minutes and cost; in particular an
`ended` chat — its `total_minutes` and `total_cost_eur` included — is never
modified again by any operation. -/
theorem chat_transition_once (db : DB) (op : Op) (cid : Id) (chat : Chat)
    (hwf : WFChats db) (hc : lookup db.chats cid = some chat) :
    lookup (run db op).chats cid = some chat ∨
      (chat.status = .active ∧ ∃ now, op = Op.endChat cid now ∧
        ∃ m cost, lookup (run db op).chats cid =
          some { chat with
                 status := .ended
                 ended_at := some now
                 total_minutes := some m
                 total_cost_eur := some cost }) := by
  cases op with
  | createUser p =>
    simp only [run]
    rcases h : create_user db p with e | pr
    · exact Or.inl hc
    · obtain ⟨db', uid⟩ := pr
      refine Or.inl ?_
      show lookup db'.chats cid = some chat
      rw [create_user_ok_chats h]
      exact hc
  | topup u a =>
    simp only [run]
    rcases h : wallet_topup db u a with e | pr
    · exact Or.inl hc
    · obtain ⟨db', b⟩ := pr
      refine Or.inl ?_
      show lookup db'.chats cid = some chat
      rw [wallet_topup_ok_chats h]
      exact hc
  | startChat cr cu now =>
    simp only [run]
    rcases h : start_chat db cr cu now with e | pr
    · exact Or.inl hc
    · obtain ⟨db', res⟩ := pr
      refine Or.inl ?_
      show lookup db'.chats cid = some chat
      obtain ⟨ch, hch⟩ := start_chat_ok_chats h
      rw [hch, lookup_cons]
      have hlt : cid < db.nextChatId := hwf _ (lookup_mem hc)
      have hne2 : db.nextChatId ≠ cid := ne_of_gt hlt
      rw [if_neg hne2]
      exact hc
  | sendMessage c s txt now =>
    simp only [run]
    rcases h : send_message db c s txt now with e | pr
    · exact Or.inl hc
    · obtain ⟨db', mid⟩ := pr
      refine Or.inl ?_
      show lookup db'.chats cid = some chat
      rw [send_message_ok_chats h]
      exact hc
  | endChat c now' =>
    simp only [run]
    by_cases hcc : c = cid
    · subst hcc
      by_cases hst : chat.status = ChatStatus.ended
      · rw [end_chat_ended_eq db c now' chat hc hst]
        exact Or.inl hc
      · have hst' : chat.status = ChatStatus.active := by
          cases hx : chat.status
          · rfl
          · exact absurd hx hst
        rw [end_chat_active_unfold db c now' chat hc hst']
        rcases h1 : lookup db.users chat.creator_id with _ | cr2
        · rw [end_chat_commit_err_left _ _ _ _ h1]
          exact Or.inl hc
        · rcases h2 : lookup db.users chat.customer_id with _ | cu2
          · rw [end_chat_commit_err_right _ _ _ _ _ h1 h2]
            exact Or.inl hc
          · rw [end_chat_commit_eq _ _ _ _ _ _ h1 h2]
            refine Or.inr ⟨hst', now', rfl, settleMinutes chat now', settleCost chat now', ?_⟩
            show lookup (settledDB db c chat cr2 cu2 now').chats c = _
            rw [settledDB_chats, lookup_updateEntry_self, hc]
            rfl
    · rcases h : end_chat db c now' with e | pr
      · exact Or.inl hc
      · obtain ⟨db', r⟩ := pr
        refine Or.inl ?_
        show lookup db'.chats cid = some chat
        rcases end_chat_ok_shape h with hdb | ⟨g, hg⟩
        · rw [hdb]
          exact hc
        · rw [hg, lookup_updateEntry_ne _ _ _ _ hcc]
          exact hc

/-- C5 witness: re-ending the already-ended example chat leaves its
document — minutes and cost included — exactly as stored. -/
theorem chat_transition_once_witness :
    lookup (run exEndedDb (Op.endChat 0 5)).chats 0 = some exEndedChat ∨
      (exEndedChat.status = .active ∧ ∃ now, Op.endChat 0 5 = Op.endChat 0 now ∧
        ∃ m cost, lookup (run exEndedDb (Op.endChat 0 5)).chats 0 =
          some { exEndedChat with
                 status := .ended
                 ended_at := some now
                 total_minutes := some m
                 total_cost_eur := some cost }) :=
  chat_transition_once exEndedDb (Op.endChat 0 5) 0 exEndedChat (by decide) rfl

end Chatjob
